import Mathlib

/-!
Verification of `salary_calculator.py`.

The source computes a net salary from a gross salary by applying a list of
deduction calculators (progressive income tax with tax-point credit, national
insurance, health insurance, mandatory pension savings) and subtracting their
sum.  All numeric values in the source are Python ints and floats; the spec's
reference computations are stated in exact arithmetic, so the embedding uses
`ℚ` throughout.

Definitions mirror the source file class by class; names follow the source.
-/

/-- Embeds the dataclass `TaxBracket(max_taxable_income, tax_rate)`. -/
structure TaxBracket where
  max_taxable_income : ℚ
  tax_rate : ℚ
deriving DecidableEq

/-- Python's `sys.maxsize`, the sentinel used for the top income-tax bracket. -/
def sys.maxsize : ℚ := 9223372036854775807

/-- The loop of `TaxBracketsDeductionCalculator.calculate`: iterates the
brackets carrying `last_max_taxable_income` and the accumulated `deduction`;
processes a bracket only while `gross_salary >= last_max_taxable_income`,
otherwise breaks and returns the accumulated deduction. -/
def TaxBracketsDeductionCalculator.calculateFrom (gross_salary : ℚ) :
    List TaxBracket → ℚ → ℚ → ℚ
  | [], _, deduction => deduction
  | tax_bracket :: rest, last_max_taxable_income, deduction =>
    if last_max_taxable_income ≤ gross_salary then
      TaxBracketsDeductionCalculator.calculateFrom gross_salary rest
        tax_bracket.max_taxable_income
        (deduction +
          (min gross_salary tax_bracket.max_taxable_income - last_max_taxable_income)
            * tax_bracket.tax_rate)
    else
      deduction

/-- Embeds `TaxBracketsDeductionCalculator.calculate`: starts the loop with
`last_max_taxable_income = 0` and `deduction = 0`. -/
def TaxBracketsDeductionCalculator.calculate
    (tax_brackets : List TaxBracket) (gross_salary : ℚ) : ℚ :=
  TaxBracketsDeductionCalculator.calculateFrom gross_salary tax_brackets 0 0

/-- The error taxonomy the spec prescribes for malformed bracket tables. -/
inductive ConfigurationError where
  | nonAscendingBounds
  | rateOutOfRange
deriving DecidableEq

/-- Strict ascent of the bracket bounds, carrying the bound of the previous
bracket. -/
def ascendingFrom (last : ℚ) : List TaxBracket → Bool
  | [] => true
  | b :: rest =>
    decide (last < b.max_taxable_income) && ascendingFrom b.max_taxable_income rest

/-- The upper bounds of the table are strictly ascending. -/
def strictlyAscending : List TaxBracket → Bool
  | [] => true
  | b :: rest => ascendingFrom b.max_taxable_income rest

/-- Well-formedness of a bracket table per the spec: strictly ascending upper
bounds and every rate in `[0, 1]`. -/
def specTableValid (tax_brackets : List TaxBracket) : Bool :=
  strictlyAscending tax_brackets &&
    tax_brackets.all (fun b => decide (0 ≤ b.tax_rate) && decide (b.tax_rate ≤ 1))

/-- Modelled from the spec: the validating construction the spec prescribes,
failing with `ConfigurationError` when bounds are not strictly ascending or a
rate lies outside `[0, 1]`.  The source has no such validation. -/
def specCheckedConstruct (tax_brackets : List TaxBracket) :
    Except ConfigurationError (List TaxBracket) :=
  if strictlyAscending tax_brackets = false then
    .error .nonAscendingBounds
  else if tax_brackets.all
      (fun b => decide (0 ≤ b.tax_rate) && decide (b.tax_rate ≤ 1)) = false then
    .error .rateOutOfRange
  else
    .ok tax_brackets

/-- Embeds construction of `TaxBracketsDeductionCalculator(tax_brackets)`: the
dataclass constructor performs no validation whatsoever, so construction is
infallible — it always succeeds with the given table. -/
def TaxBracketsDeductionCalculator.construct (tax_brackets : List TaxBracket) :
    Except ConfigurationError (List TaxBracket) :=
  .ok tax_brackets

/-- `IncomeTaxCalculator.TAX_POINT_VALUE`. -/
def IncomeTaxCalculator.TAX_POINT_VALUE : ℚ := 223

/-- The default income-tax bracket table of `IncomeTaxCalculator`; the top
bracket's bound is the sentinel `sys.maxsize`. -/
def IncomeTaxCalculator.default_tax_brackets : List TaxBracket :=
  [⟨6450, 0.1⟩, ⟨9240, 0.14⟩, ⟨14840, 0.2⟩, ⟨20620, 0.31⟩,
   ⟨42910, 0.35⟩, ⟨55270, 0.47⟩, ⟨sys.maxsize, 0.5⟩]

/-- The default bracket table of `NationalInsuranceCalculator`. -/
def NationalInsuranceCalculator.default_tax_brackets : List TaxBracket :=
  [⟨6331, 0.004⟩, ⟨44020, 0.07⟩]

/-- The default bracket table of `HealthInsuranceCalculator`. -/
def HealthInsuranceCalculator.default_tax_brackets : List TaxBracket :=
  [⟨6331, 0.031⟩, ⟨44020, 0.05⟩]

/-- The four concrete `DeductionCalculator` subclasses of the source, each
carrying its configuration (a bracket table where the class has one, and the
tax-point count for income tax). -/
inductive DeductionCalculator where
  | taxBrackets (tax_brackets : List TaxBracket)
  | incomeTax (tax_points : ℚ) (tax_brackets : List TaxBracket)
  | nationalInsurance (tax_brackets : List TaxBracket)
  | healthInsurance (tax_brackets : List TaxBracket)
  | mandatoryPensionSavings
deriving DecidableEq

/-- Embeds the `calculate` method of each `DeductionCalculator` subclass. -/
def DeductionCalculator.calculate : DeductionCalculator → ℚ → ℚ
  | .taxBrackets tax_brackets, gross_salary =>
    TaxBracketsDeductionCalculator.calculate tax_brackets gross_salary
  | .incomeTax tax_points tax_brackets, gross_salary =>
    TaxBracketsDeductionCalculator.calculate tax_brackets gross_salary -
      IncomeTaxCalculator.TAX_POINT_VALUE * tax_points
  | .nationalInsurance tax_brackets, gross_salary =>
    TaxBracketsDeductionCalculator.calculate tax_brackets gross_salary
  | .healthInsurance tax_brackets, gross_salary =>
    TaxBracketsDeductionCalculator.calculate tax_brackets gross_salary
  | .mandatoryPensionSavings, gross_salary => gross_salary * 0.06

/-- Embeds the `__repr__` of each subclass, used for the diagnostic trace. -/
def DeductionCalculator.repr : DeductionCalculator → String
  | .taxBrackets _ => "TaxBracketsDeductionCalculator"
  | .incomeTax _ _ => "Income tax"
  | .nationalInsurance _ => "National insurance"
  | .healthInsurance _ => "Health insurance"
  | .mandatoryPensionSavings => "Mandatory pension savings"

/-- The loop of `NetSalaryCalculator.calculate`: folds over the calculators
accumulating the sum `deductions` and, for each calculator in order, one
diagnostic trace record `(repr, deduction)` (the source logs
`f'{deduction_calculator}: {deduction:.2f}'`; the record keeps the unrounded
amount, rounding being presentation only). -/
def NetSalaryCalculator.calculateLoop (gross_salary : ℚ) :
    List DeductionCalculator → ℚ → List (String × ℚ) → ℚ × List (String × ℚ)
  | [], deductions, trace => (deductions, trace)
  | deduction_calculator :: rest, deductions, trace =>
    NetSalaryCalculator.calculateLoop gross_salary rest
      (deductions + deduction_calculator.calculate gross_salary)
      (trace ++ [(deduction_calculator.repr, deduction_calculator.calculate gross_salary)])

/-- Embeds `NetSalaryCalculator.calculate`: runs the loop and returns
`gross_salary - deductions` together with the emitted trace. -/
def NetSalaryCalculator.calculate
    (deduction_calculators : List DeductionCalculator) (gross_salary : ℚ) :
    ℚ × List (String × ℚ) :=
  let r := NetSalaryCalculator.calculateLoop gross_salary deduction_calculators 0 []
  (gross_salary - r.1, r.2)

/-- Embeds `NetSalaryCalculatorFactory.create`: the canonical four calculators
in source order, `tax_points` given only to the income-tax calculator. -/
def NetSalaryCalculatorFactory.create (tax_points : ℚ) : List DeductionCalculator :=
  [.incomeTax tax_points IncomeTaxCalculator.default_tax_brackets,
   .nationalInsurance NationalInsuranceCalculator.default_tax_brackets,
   .healthInsurance HealthInsuranceCalculator.default_tax_brackets,
   .mandatoryPensionSavings]

/-- Modelled from the spec: the income-tax engine as the spec describes the
default table, with the seventh tier genuinely unbounded (rates and the first
six bounds as in the source; every income above 55270 is taxed at 0.5 with no
ceiling).  Used to compare the spec's "unbounded" top tier with the source's
`sys.maxsize` sentinel. -/
def specUnboundedIncomeTaxApply (gross_salary : ℚ) : ℚ :=
  TaxBracketsDeductionCalculator.calculate
    [⟨6450, 0.1⟩, ⟨9240, 0.14⟩, ⟨14840, 0.2⟩, ⟨20620, 0.31⟩,
     ⟨42910, 0.35⟩, ⟨55270, 0.47⟩] gross_salary +
    (if 55270 ≤ gross_salary then (gross_salary - 55270) * 0.5 else 0)

/-- The deduction contributed by a suffix of the bracket list, carrying the
threshold `last`; the accumulating loop `calculateFrom` equals its accumulator
plus this sum (see `calculateFrom_eq_tierSum`). -/
def TaxBracketsDeductionCalculator.tierSum (gross_salary : ℚ) :
    List TaxBracket → ℚ → ℚ
  | [], _ => 0
  | b :: rest, last =>
    if last ≤ gross_salary then
      (min gross_salary b.max_taxable_income - last) * b.tax_rate +
        TaxBracketsDeductionCalculator.tierSum gross_salary rest b.max_taxable_income
    else 0

theorem calculateFrom_eq_tierSum (g : ℚ) (tb : List TaxBracket) (last d : ℚ) :
    TaxBracketsDeductionCalculator.calculateFrom g tb last d =
      d + TaxBracketsDeductionCalculator.tierSum g tb last := by
  induction tb generalizing last d with
  | nil =>
    simp [TaxBracketsDeductionCalculator.calculateFrom,
      TaxBracketsDeductionCalculator.tierSum]
  | cons b rest ih =>
    simp only [TaxBracketsDeductionCalculator.calculateFrom,
      TaxBracketsDeductionCalculator.tierSum]
    by_cases h : last ≤ g
    · rw [if_pos h, if_pos h, ih]
      ring
    · rw [if_neg h, if_neg h, add_zero]

theorem calculate_eq_tierSum (tb : List TaxBracket) (g : ℚ) :
    TaxBracketsDeductionCalculator.calculate tb g =
      TaxBracketsDeductionCalculator.tierSum g tb 0 := by
  simp [TaxBracketsDeductionCalculator.calculate, calculateFrom_eq_tierSum]

theorem tierSum_nonneg (g : ℚ) (tb : List TaxBracket) (last : ℚ)
    (hasc : ascendingFrom last tb = true) (hr : ∀ b ∈ tb, 0 ≤ b.tax_rate) :
    0 ≤ TaxBracketsDeductionCalculator.tierSum g tb last := by
  induction tb generalizing last with
  | nil => simp [TaxBracketsDeductionCalculator.tierSum]
  | cons b rest ih =>
    simp only [ascendingFrom, Bool.and_eq_true, decide_eq_true_eq] at hasc
    simp only [TaxBracketsDeductionCalculator.tierSum]
    by_cases h : last ≤ g
    · rw [if_pos h]
      have hmin : last ≤ min g b.max_taxable_income := le_min h hasc.1.le
      refine add_nonneg (mul_nonneg (sub_nonneg.mpr hmin)
        (hr b (List.mem_cons_self _ _))) ?_
      exact ih _ hasc.2 fun b' hb' => hr b' (List.mem_cons_of_mem _ hb')
    · rw [if_neg h]

theorem tierSum_mono (g1 g2 : ℚ) (hg : g1 ≤ g2) (tb : List TaxBracket) (last : ℚ)
    (hasc : ascendingFrom last tb = true) (hr : ∀ b ∈ tb, 0 ≤ b.tax_rate) :
    TaxBracketsDeductionCalculator.tierSum g1 tb last ≤
      TaxBracketsDeductionCalculator.tierSum g2 tb last := by
  induction tb generalizing last with
  | nil => simp [TaxBracketsDeductionCalculator.tierSum]
  | cons b rest ih =>
    have hasc' := hasc
    simp only [ascendingFrom, Bool.and_eq_true, decide_eq_true_eq] at hasc'
    by_cases h1 : last ≤ g1
    · simp only [TaxBracketsDeductionCalculator.tierSum]
      rw [if_pos h1, if_pos (h1.trans hg)]
      refine add_le_add (mul_le_mul_of_nonneg_right
        (sub_le_sub_right (min_le_min hg le_rfl) _)
        (hr b (List.mem_cons_self _ _))) ?_
      exact ih _ hasc'.2 fun b' hb' => hr b' (List.mem_cons_of_mem _ hb')
    · have hz : TaxBracketsDeductionCalculator.tierSum g1 (b :: rest) last = 0 := by
        simp only [TaxBracketsDeductionCalculator.tierSum]
        rw [if_neg h1]
      rw [hz]
      exact tierSum_nonneg g2 (b :: rest) last hasc hr

theorem tierSum_eq_zero_of_nonpos (g : ℚ) (tb : List TaxBracket) (last : ℚ)
    (hb : ∀ b ∈ tb, 0 ≤ b.max_taxable_income) (hlast : 0 ≤ last) (hg : g ≤ 0) :
    TaxBracketsDeductionCalculator.tierSum g tb last = 0 := by
  induction tb generalizing last with
  | nil => simp [TaxBracketsDeductionCalculator.tierSum]
  | cons b rest ih =>
    simp only [TaxBracketsDeductionCalculator.tierSum]
    by_cases h : last ≤ g
    · rw [if_pos h]
      have hl0 : last = 0 := le_antisymm (h.trans hg) hlast
      have hg0 : g = 0 := le_antisymm hg (hlast.trans h)
      have hM : 0 ≤ b.max_taxable_income := hb b (List.mem_cons_self _ _)
      subst hg0
      rw [hl0, min_eq_left hM,
        ih _ (fun b' hb' => hb b' (List.mem_cons_of_mem _ hb')) hM]
      ring
    · rw [if_neg h]

theorem calculateLoop_eq (g : ℚ) (cs : List DeductionCalculator) (d : ℚ)
    (t : List (String × ℚ)) :
    NetSalaryCalculator.calculateLoop g cs d t =
      (d + (cs.map fun c => c.calculate g).sum,
       t ++ cs.map fun c => (c.repr, c.calculate g)) := by
  induction cs generalizing d t with
  | nil => simp [NetSalaryCalculator.calculateLoop]
  | cons c rest ih =>
    simp [NetSalaryCalculator.calculateLoop, ih, add_assoc]

/-- C1 (counterexample): at `gross_salary = 50000` the national-insurance
deduction is not `6331*0.004 + (50000-6331)*0.07`: the code's second tier is
capped at 44020, so the deduction is `6331*0.004 + (44020-6331)*0.07`. -/
theorem C1_counterexample :
    DeductionCalculator.calculate
        (.nationalInsurance NationalInsuranceCalculator.default_tax_brackets) 50000 ≠
      6331 * 0.004 + (50000 - 6331) * 0.07 := by
  norm_num [DeductionCalculator.calculate, TaxBracketsDeductionCalculator.calculate,
    TaxBracketsDeductionCalculator.calculateFrom,
    NationalInsuranceCalculator.default_tax_brackets]

/-- C1 (amended): the National Insurance and Health Insurance rules are the
progressive engine applied to fixed two-tier tables whose first tier has upper
bound 6331 (rates 0.004 and 0.031) and whose second tier has upper bound 44020
(rates 0.07 and 0.05, not unbounded); for every `gross_salary` with
`6331 ≤ gross_salary ≤ 44020` the National Insurance deduction equals
`6331*0.004 + (gross_salary-6331)*0.07` and the Health Insurance deduction
equals `6331*0.031 + (gross_salary-6331)*0.05`. -/
theorem C1_amended (g : ℚ) (h1 : 6331 ≤ g) (h2 : g ≤ 44020) :
    NationalInsuranceCalculator.default_tax_brackets =
        [⟨6331, 0.004⟩, ⟨44020, 0.07⟩] ∧
    HealthInsuranceCalculator.default_tax_brackets =
        [⟨6331, 0.031⟩, ⟨44020, 0.05⟩] ∧
    DeductionCalculator.calculate
        (.nationalInsurance NationalInsuranceCalculator.default_tax_brackets) g =
      6331 * 0.004 + (g - 6331) * 0.07 ∧
    DeductionCalculator.calculate
        (.healthInsurance HealthInsuranceCalculator.default_tax_brackets) g =
      6331 * 0.031 + (g - 6331) * 0.05 := by
  have h0 : (0 : ℚ) ≤ g := le_trans (by norm_num) h1
  refine ⟨rfl, rfl, ?_, ?_⟩ <;>
  · simp only [DeductionCalculator.calculate,
      TaxBracketsDeductionCalculator.calculate,
      NationalInsuranceCalculator.default_tax_brackets,
      HealthInsuranceCalculator.default_tax_brackets,
      TaxBracketsDeductionCalculator.calculateFrom, if_pos h0, if_pos h1,
      min_eq_right h1, min_eq_left h2]
    ring

/-- C1 (witness): the amended statement instantiated at
`gross_salary = 10000`. -/
theorem C1_witness :
    (6331 : ℚ) ≤ 10000 ∧ (10000 : ℚ) ≤ 44020 ∧
    (NationalInsuranceCalculator.default_tax_brackets =
        [⟨6331, 0.004⟩, ⟨44020, 0.07⟩] ∧
     HealthInsuranceCalculator.default_tax_brackets =
        [⟨6331, 0.031⟩, ⟨44020, 0.05⟩] ∧
     DeductionCalculator.calculate
        (.nationalInsurance NationalInsuranceCalculator.default_tax_brackets) 10000 =
       6331 * 0.004 + (10000 - 6331) * 0.07 ∧
     DeductionCalculator.calculate
        (.healthInsurance HealthInsuranceCalculator.default_tax_brackets) 10000 =
       6331 * 0.031 + (10000 - 6331) * 0.05) :=
  ⟨by norm_num, by norm_num, C1_amended 10000 (by norm_num) (by norm_num)⟩

/-- C2 (counterexample): the table `[(10, 2.0), (5, 0.5)]` is malformed on both
counts (bounds not ascending, a rate above 1), yet the source construction
succeeds and `calculate` returns an ordinary value (17.5 at gross 20): the code
raises no `ConfigurationError` anywhere. -/
theorem C2_counterexample :
    specTableValid [⟨10, 2⟩, ⟨5, 0.5⟩] = false ∧
    TaxBracketsDeductionCalculator.construct [⟨10, 2⟩, ⟨5, 0.5⟩] =
      .ok [⟨10, 2⟩, ⟨5, 0.5⟩] ∧
    TaxBracketsDeductionCalculator.calculate [⟨10, 2⟩, ⟨5, 0.5⟩] 20 = 17.5 := by
  refine ⟨by decide, rfl, ?_⟩
  norm_num [TaxBracketsDeductionCalculator.calculate,
    TaxBracketsDeductionCalculator.calculateFrom]

/-- C2 (amended): the source performs no validation at all — construction of a
bracket-table calculator always succeeds, for malformed tables as well, and no
`ConfigurationError` is ever raised; for every well-formed table the validating
construction the spec prescribes also succeeds (its error branch is never
taken). -/
theorem C2_amended (tb : List TaxBracket) :
    TaxBracketsDeductionCalculator.construct tb = .ok tb ∧
    (specTableValid tb = true → specCheckedConstruct tb = .ok tb) := by
  refine ⟨rfl, fun h => ?_⟩
  simp only [specTableValid, Bool.and_eq_true] at h
  simp [specCheckedConstruct, h.1, h.2]

/-- C2 (witness): the amended statement instantiated at the national-insurance
default table, which is well-formed. -/
theorem C2_witness :
    TaxBracketsDeductionCalculator.construct
        NationalInsuranceCalculator.default_tax_brackets =
      .ok NationalInsuranceCalculator.default_tax_brackets ∧
    specCheckedConstruct NationalInsuranceCalculator.default_tax_brackets =
      .ok NationalInsuranceCalculator.default_tax_brackets :=
  ⟨(C2_amended _).1, (C2_amended _).2 (by
    norm_num [specTableValid, strictlyAscending, ascendingFrom,
      NationalInsuranceCalculator.default_tax_brackets])⟩

/-- C3 (counterexample): at `gross_salary = sys.maxsize + 1` and
`tax_points = 0` the income-tax deduction differs from the engine with a
genuinely unbounded seventh tier: the code's top bracket is capped at the
sentinel `sys.maxsize`, so the two differ by 0.5. -/
theorem C3_counterexample :
    DeductionCalculator.calculate
        (.incomeTax 0 IncomeTaxCalculator.default_tax_brackets)
        9223372036854775808 ≠
      specUnboundedIncomeTaxApply 9223372036854775808 - 223 * 0 := by
  norm_num [DeductionCalculator.calculate, specUnboundedIncomeTaxApply,
    TaxBracketsDeductionCalculator.calculate,
    TaxBracketsDeductionCalculator.calculateFrom,
    IncomeTaxCalculator.default_tax_brackets,
    IncomeTaxCalculator.TAX_POINT_VALUE, sys.maxsize]

/-- C3 (amended): for every `gross_salary` and `tax_points`, the income-tax
rule returns the progressive engine applied to the default income-tax table
minus `TAX_POINT_VALUE * tax_points` with `TAX_POINT_VALUE = 223`; the default
table has seven tiers with upper bounds
6450/9240/14840/20620/42910/55270/`sys.maxsize` (the top tier carries the
finite sentinel `sys.maxsize = 9223372036854775807`, not "unbounded") and rates
0.10/0.14/0.20/0.31/0.35/0.47/0.50; the result may be negative (it is not
clamped at zero, e.g. at gross 0 with one tax point it is -223). -/
theorem C3_amended (g tp : ℚ) :
    DeductionCalculator.calculate
        (.incomeTax tp IncomeTaxCalculator.default_tax_brackets) g =
      TaxBracketsDeductionCalculator.calculate
          IncomeTaxCalculator.default_tax_brackets g - 223 * tp ∧
    IncomeTaxCalculator.TAX_POINT_VALUE = 223 ∧
    IncomeTaxCalculator.default_tax_brackets =
      [⟨6450, 0.1⟩, ⟨9240, 0.14⟩, ⟨14840, 0.2⟩, ⟨20620, 0.31⟩,
       ⟨42910, 0.35⟩, ⟨55270, 0.47⟩, ⟨9223372036854775807, 0.5⟩] ∧
    DeductionCalculator.calculate
        (.incomeTax 1 IncomeTaxCalculator.default_tax_brackets) 0 < 0 := by
  refine ⟨rfl, rfl, rfl, ?_⟩
  norm_num [DeductionCalculator.calculate, TaxBracketsDeductionCalculator.calculate,
    TaxBracketsDeductionCalculator.calculateFrom,
    IncomeTaxCalculator.default_tax_brackets,
    IncomeTaxCalculator.TAX_POINT_VALUE, sys.maxsize]

/-- C4: for every `gross_salary` and every list of deduction calculators, the
net-salary pipeline applies each calculator to the same `gross_salary`, sums
the returned amounts, emits one trace record per calculator in pipeline order,
and returns `gross_salary` minus that sum; the factory-built pipeline is
exactly Income Tax, National Insurance, Health Insurance, Mandatory Pension in
that order, with `tax_points` injected only into the income-tax rule. -/
theorem C4_pipeline (g tp : ℚ) (cs : List DeductionCalculator) :
    NetSalaryCalculator.calculate cs g =
      (g - (cs.map fun c => c.calculate g).sum,
       cs.map fun c => (c.repr, c.calculate g)) ∧
    NetSalaryCalculatorFactory.create tp =
      [.incomeTax tp IncomeTaxCalculator.default_tax_brackets,
       .nationalInsurance NationalInsuranceCalculator.default_tax_brackets,
       .healthInsurance HealthInsuranceCalculator.default_tax_brackets,
       .mandatoryPensionSavings] := by
  refine ⟨?_, rfl⟩
  simp [NetSalaryCalculator.calculate, calculateLoop_eq]

/-- C5: at `gross_salary = 10000` and `tax_points = 2.25` the factory-built
pipeline yields, in exact arithmetic, income tax 685.85, national insurance
282.154, health insurance 379.711, mandatory pension 600, total deductions
1947.715 and net salary 8052.285. -/
theorem C5_scenario :
    DeductionCalculator.calculate
        (.incomeTax 2.25 IncomeTaxCalculator.default_tax_brackets) 10000 = 685.85 ∧
    DeductionCalculator.calculate
        (.nationalInsurance NationalInsuranceCalculator.default_tax_brackets) 10000 =
      282.154 ∧
    DeductionCalculator.calculate
        (.healthInsurance HealthInsuranceCalculator.default_tax_brackets) 10000 =
      379.711 ∧
    DeductionCalculator.calculate .mandatoryPensionSavings 10000 = 600 ∧
    ((NetSalaryCalculatorFactory.create 2.25).map
        fun c => c.calculate 10000).sum = 1947.715 ∧
    (NetSalaryCalculator.calculate (NetSalaryCalculatorFactory.create 2.25) 10000).1 =
      8052.285 := by
  refine ⟨?_, ?_, ?_, ?_, ?_, ?_⟩ <;>
  norm_num [NetSalaryCalculator.calculate, NetSalaryCalculator.calculateLoop,
    NetSalaryCalculatorFactory.create, DeductionCalculator.calculate,
    TaxBracketsDeductionCalculator.calculate,
    TaxBracketsDeductionCalculator.calculateFrom,
    IncomeTaxCalculator.default_tax_brackets,
    NationalInsuranceCalculator.default_tax_brackets,
    HealthInsuranceCalculator.default_tax_brackets,
    IncomeTaxCalculator.TAX_POINT_VALUE, sys.maxsize]

/-- C6: for every bracket table with strictly ascending upper bounds and rates
in `[0, 1]`, the bracket deduction is monotonically non-decreasing in the
gross salary on non-negative inputs. -/
theorem C6_monotone (tb : List TaxBracket) (g1 g2 : ℚ)
    (hasc : strictlyAscending tb = true)
    (hr : ∀ b ∈ tb, 0 ≤ b.tax_rate ∧ b.tax_rate ≤ 1)
    (h0 : 0 ≤ g1) (h12 : g1 ≤ g2) :
    TaxBracketsDeductionCalculator.calculate tb g1 ≤
      TaxBracketsDeductionCalculator.calculate tb g2 := by
  rw [calculate_eq_tierSum, calculate_eq_tierSum]
  cases tb with
  | nil => simp [TaxBracketsDeductionCalculator.tierSum]
  | cons b rest =>
    simp only [strictlyAscending] at hasc
    simp only [TaxBracketsDeductionCalculator.tierSum]
    rw [if_pos h0, if_pos (h0.trans h12)]
    refine add_le_add (mul_le_mul_of_nonneg_right
      (sub_le_sub_right (min_le_min h12 le_rfl) _)
      (hr b (List.mem_cons_self _ _)).1) ?_
    exact tierSum_mono g1 g2 h12 rest b.max_taxable_income hasc
      fun b' hb' => (hr b' (List.mem_cons_of_mem _ hb')).1

/-- C6 (witness): monotonicity instantiated on the national-insurance default
table at `g1 = 10`, `g2 = 20`. -/
theorem C6_witness :
    TaxBracketsDeductionCalculator.calculate
        NationalInsuranceCalculator.default_tax_brackets 10 ≤
      TaxBracketsDeductionCalculator.calculate
        NationalInsuranceCalculator.default_tax_brackets 20 :=
  C6_monotone NationalInsuranceCalculator.default_tax_brackets 10 20
    (by norm_num [strictlyAscending, ascendingFrom,
      NationalInsuranceCalculator.default_tax_brackets])
    (by intro b hb
        fin_cases hb <;> norm_num)
    (by norm_num) (by norm_num)

/-- C7 (counterexample): with the single-tier table `[(sys.maxsize, 0.5)]`
(the code's rendering of one unbounded tier) and `gross_salary = -2`, the
deduction is 0, not `-2 * 0.5`: a negative gross never equals
`gross_salary * rate` for a non-zero rate. -/
theorem C7_counterexample :
    TaxBracketsDeductionCalculator.calculate [⟨sys.maxsize, 0.5⟩] (-2) ≠
      (-2) * 0.5 := by
  norm_num [TaxBracketsDeductionCalculator.calculate,
    TaxBracketsDeductionCalculator.calculateFrom, sys.maxsize]

/-- C7 (amended): for a single-tier table with bound `B` and rate `r`, the
deduction equals `gross_salary * r` for every `gross_salary` with
`0 ≤ gross_salary ≤ B` (in particular for every non-negative salary up to the
`sys.maxsize` sentinel the code uses for an "unbounded" tier); a negative
`gross_salary` instead yields 0. -/
theorem C7_amended (B r g : ℚ) :
    (0 ≤ g → g ≤ B → TaxBracketsDeductionCalculator.calculate [⟨B, r⟩] g = g * r) ∧
    (g < 0 → TaxBracketsDeductionCalculator.calculate [⟨B, r⟩] g = 0) := by
  constructor
  · intro h0 hB
    simp [TaxBracketsDeductionCalculator.calculate,
      TaxBracketsDeductionCalculator.calculateFrom, if_pos h0, min_eq_left hB]
  · intro hneg
    simp [TaxBracketsDeductionCalculator.calculate,
      TaxBracketsDeductionCalculator.calculateFrom, not_le.mpr hneg]

/-- C7 (witness): the amended statement instantiated at the sentinel bound,
rate 0.5, and gross salaries 7 and -3. -/
theorem C7_witness :
    TaxBracketsDeductionCalculator.calculate [⟨sys.maxsize, 0.5⟩] 7 = 7 * 0.5 ∧
    TaxBracketsDeductionCalculator.calculate [⟨sys.maxsize, 0.5⟩] (-3) = 0 :=
  ⟨(C7_amended sys.maxsize 0.5 7).1 (by norm_num) (by norm_num [sys.maxsize]),
   (C7_amended sys.maxsize 0.5 (-3)).2 (by norm_num)⟩

/-- C8 (counterexample): the single-tier table `[(-1, 1)]` is valid in the
spec's sense (trivially ascending, rate in `[0, 1]`), yet at `gross_salary = 0`
the engine returns -1, not 0: with a negative upper bound the first tier
contributes `min(0, -1) * 1 = -1`. -/
theorem C8_counterexample :
    specTableValid [⟨-1, 1⟩] = true ∧
    TaxBracketsDeductionCalculator.calculate [⟨-1, 1⟩] 0 ≠ 0 := by
  refine ⟨by decide, ?_⟩
  norm_num [TaxBracketsDeductionCalculator.calculate,
    TaxBracketsDeductionCalculator.calculateFrom]

/-- C8 (amended): for every valid bracket table whose upper bounds are in
addition non-negative, the engine returns 0 at every `gross_salary ≤ 0`
(including exactly 0). -/
theorem C8_amended (tb : List TaxBracket) (g : ℚ)
    (hasc : strictlyAscending tb = true)
    (hr : ∀ b ∈ tb, 0 ≤ b.tax_rate ∧ b.tax_rate ≤ 1)
    (hb : ∀ b ∈ tb, 0 ≤ b.max_taxable_income)
    (hg : g ≤ 0) :
    TaxBracketsDeductionCalculator.calculate tb g = 0 := by
  rw [calculate_eq_tierSum]
  exact tierSum_eq_zero_of_nonpos g tb 0 hb le_rfl hg

/-- C8 (witness): the amended statement instantiated at the national-insurance
default table and `gross_salary = 0`. -/
theorem C8_witness :
    TaxBracketsDeductionCalculator.calculate
      NationalInsuranceCalculator.default_tax_brackets 0 = 0 :=
  C8_amended NationalInsuranceCalculator.default_tax_brackets 0
    (by norm_num [strictlyAscending, ascendingFrom,
      NationalInsuranceCalculator.default_tax_brackets])
    (by intro b hb
        simp only [NationalInsuranceCalculator.default_tax_brackets,
          List.mem_cons, List.mem_singleton] at hb
        rcases hb with h | h | h <;> first | (subst h; norm_num) | cases h)
    (by intro b hb
        simp only [NationalInsuranceCalculator.default_tax_brackets,
          List.mem_cons, List.mem_singleton] at hb
        rcases hb with h | h | h <;> first | (subst h; norm_num) | cases h)
    le_rfl

/-- C9: above 44020 both the national-insurance and the health-insurance
deductions are constant: for every `gross_salary ≥ 44020` they equal their
values at 44020, `6331*0.004 + (44020-6331)*0.07` and
`6331*0.031 + (44020-6331)*0.05` respectively. -/
theorem C9_capped (g : ℚ) (h : 44020 ≤ g) :
    DeductionCalculator.calculate
        (.nationalInsurance NationalInsuranceCalculator.default_tax_brackets) g =
      6331 * 0.004 + (44020 - 6331) * 0.07 ∧
    DeductionCalculator.calculate
        (.healthInsurance HealthInsuranceCalculator.default_tax_brackets) g =
      6331 * 0.031 + (44020 - 6331) * 0.05 := by
  have h1 : (6331 : ℚ) ≤ g := le_trans (by norm_num) h
  have h0 : (0 : ℚ) ≤ g := le_trans (by norm_num) h1
  constructor <;>
  · simp only [DeductionCalculator.calculate,
      TaxBracketsDeductionCalculator.calculate,
      NationalInsuranceCalculator.default_tax_brackets,
      HealthInsuranceCalculator.default_tax_brackets,
      TaxBracketsDeductionCalculator.calculateFrom, if_pos h0, if_pos h1,
      min_eq_right h1, min_eq_right h]
    ring

/-- C9 (witness): the capped values instantiated at `gross_salary = 50000`. -/
theorem C9_witness :
    (44020 : ℚ) ≤ 50000 ∧
    (DeductionCalculator.calculate
        (.nationalInsurance NationalInsuranceCalculator.default_tax_brackets) 50000 =
      6331 * 0.004 + (44020 - 6331) * 0.07 ∧
     DeductionCalculator.calculate
        (.healthInsurance HealthInsuranceCalculator.default_tax_brackets) 50000 =
      6331 * 0.031 + (44020 - 6331) * 0.05) :=
  ⟨by norm_num, C9_capped 50000 (by norm_num)⟩

/-- C10: a pipeline configured with an empty list of deduction calculators
returns the gross salary unchanged and emits no trace record. -/
theorem C10_empty (g : ℚ) :
    NetSalaryCalculator.calculate [] g = (g, []) := by
  simp [NetSalaryCalculator.calculate, NetSalaryCalculator.calculateLoop]
